import Mathlib

/-!
Verification development for the DayPilot planning backend.

The definitions below are a shallow embedding of the repository's Python
code: SQLite tables become lists of row structures, `INSERT OR REPLACE`
and `ON CONFLICT ... DO UPDATE` become explicit list operations keyed on
the same columns as the real constraints, floating-point arithmetic on
small bounded quantities becomes exact rational arithmetic, and the remote
language-model call becomes an explicit parameter (the parse outcome of
its text response).
-/

namespace DayPilot

/-- A scheduled time block, as stored in the `time_blocks` JSON column of the
`schedules` table and modelled by the `TimeBlock` pydantic schema.  Only the
fields the services inspect are carried. -/
structure TimeBlock where
  block_id : String
  title : String
  start_time : String
  end_time : String
  category : String
  status : String
deriving Repr, DecidableEq

/-! ## Progress service: numeric aggregation (`services/progress_service.py`) -/

/-- Python's `round(x, 3)`: scale by 1000, round to an integer, scale back.
(The claims only evaluate it where `1000 * q` is an integer, so the
tie-breaking convention is irrelevant there.) -/
def round3 (q : ℚ) : ℚ := (round (1000 * q) : ℤ) / 1000

/-- The burnout risk score of `get_progress_summary` (computed when at least
one check-in exists in the window):
`round(min(1.0, (1 - avg_mood/10)*0.35 + (1 - avg_focus/10)*0.25 +
energy_penalty*0.20 + min(work_hrs_avg/10, 1.0)*0.20), 3)`. -/
def burnout_risk (avg_mood avg_focus energy_penalty work_hrs_avg : ℚ) : ℚ :=
  round3 (min 1
    ((1 - avg_mood / 10) * (35/100) +
     (1 - avg_focus / 10) * (25/100) +
     energy_penalty * (20/100) +
     min (work_hrs_avg / 10) 1 * (20/100)))

/-- Total number of blocks over the schedule rows of the window
(`total_blocks` accumulator). -/
def total_blocks (rows : List (List TimeBlock)) : ℕ :=
  (rows.map List.length).sum

/-- Number of blocks with status `"completed"` over the window
(`completed_blocks` accumulator). -/
def completed_blocks (rows : List (List TimeBlock)) : ℕ :=
  (rows.map (fun bs => (bs.filter (fun b => b.status == "completed")).length)).sum

/-- Embeds `completion_rate = (completed_blocks / total_blocks) if total_blocks else 0.0`. -/
def completion_rate (rows : List (List TimeBlock)) : ℚ :=
  if total_blocks rows = 0 then 0
  else (completed_blocks rows : ℚ) / (total_blocks rows : ℚ)

/-- Embeds `required = (days / (days + days_left)) * 100 if days_left > 0 else 100`. -/
def required_progress (days : ℚ) (days_left : ℤ) : ℚ :=
  if 0 < days_left then (days / (days + days_left)) * 100 else 100

/-- The goal classification of `get_progress_summary`: `true` means the goal
is appended to `goals_on_track`, `false` to `goals_at_risk`
(`if pct >= required * 0.85`). -/
def goal_on_track (pct : ℚ) (days : ℚ) (days_left : ℤ) : Bool :=
  decide (required_progress days days_left * (85/100) ≤ pct)

/-- C1 counterexample: at the fixed inputs avg_mood=5, avg_focus=5,
energy_penalty=0.5, work_hrs_avg=5 the computed burnout score is not 0.4. -/
theorem burnout_risk_fixed_inputs_ne_claimed :
    burnout_risk 5 5 (1/2) 5 ≠ (4/10 : ℚ) := by
  simp only [burnout_risk, round3]
  norm_num

/-- C1 (amended): at the fixed inputs avg_mood=5, avg_focus=5,
energy_penalty=0.5, work_hrs_avg=5, the weighted sum
(1-5/10)*0.35 + (1-5/10)*0.25 + 0.5*0.20 + min(5/10,1)*0.20 equals 0.5,
is unaffected by the clamp at 1.0 and by rounding to 3 decimal places, so
the computed burnout risk score equals 0.5. -/
theorem burnout_risk_fixed_inputs :
    burnout_risk 5 5 (1/2) 5 = (1/2 : ℚ) := by
  simp only [burnout_risk, round3]
  norm_num

/-- C5: when the window's schedules contain zero time blocks in total, the
completion rate is exactly 0 (the division is guarded by the zero-total
branch, so no division by zero is performed). -/
theorem completion_rate_zero_blocks (rows : List (List TimeBlock))
    (h : total_blocks rows = 0) : completion_rate rows = 0 := by
  simp [completion_rate, h]

/-- C5 witness: a window consisting of one schedule row with an empty block
list has zero total blocks and completion rate 0. -/
theorem completion_rate_zero_blocks_witness :
    total_blocks [[]] = 0 ∧ completion_rate [[]] = 0 :=
  ⟨by decide, completion_rate_zero_blocks [[]] (by decide)⟩

/-- C6: for an active goal with a positive number of days left, the on-track
classification is exactly `progress_percent ≥ required * 0.85` where
`required = (days / (days + days_left)) * 100`; in particular a goal whose
progress is exactly `required * 0.85` is classified on-track (boundary
inclusive), and otherwise the goal is classified at-risk. -/
theorem goal_on_track_boundary (pct days : ℚ) (days_left : ℤ)
    (h : 0 < days_left) :
    required_progress days days_left = (days / (days + days_left)) * 100 ∧
    (goal_on_track pct days days_left = true ↔
      (days / (days + days_left)) * 100 * (85/100) ≤ pct) ∧
    goal_on_track ((days / (days + days_left)) * 100 * (85/100)) days days_left
      = true := by
  have hreq : required_progress days days_left = (days / (days + days_left)) * 100 := by
    simp [required_progress, h]
  refine ⟨hreq, ?_, ?_⟩
  · simp [goal_on_track, hreq]
  · simp [goal_on_track, hreq]

/-- C6 witness: with days = 7 and days_left = 7, required = 50 and a goal at
exactly 42.5 percent progress is classified on-track. -/
theorem goal_on_track_boundary_witness :
    (0 : ℤ) < 7 ∧
    (required_progress 7 7 = (7 / (7 + (7:ℤ))) * 100 ∧
     (goal_on_track (85/2) 7 7 = true ↔
       ((7:ℚ) / (7 + (7:ℤ))) * 100 * (85/100) ≤ (85/2 : ℚ)) ∧
     goal_on_track (((7:ℚ) / (7 + (7:ℤ))) * 100 * (85/100)) 7 7 = true) :=
  ⟨by decide, goal_on_track_boundary (85/2) 7 7 (by decide)⟩

/-! ## Python string comparison

`adaptive_reschedule_today` compares `"HH:MM"` strings with `<` / `>=`,
which in Python is lexicographic comparison of code points.  Lean's
built-in `String.decidableLT` does not reduce in the kernel, so the
comparison is embedded as a structurally recursive boolean on the
character lists and related to `String.lt` below. -/

/-- Lexicographic code-point comparison of character lists (Python `<` on
strings). -/
def str_lt_chars : List Char → List Char → Bool
  | [], [] => false
  | [], _ :: _ => true
  | _ :: _, [] => false
  | a :: as, b :: bs =>
    if a < b then true
    else if b < a then false
    else str_lt_chars as bs

/-- Python `s < t` on strings. -/
def str_lt (s t : String) : Bool := str_lt_chars s.data t.data

/-- Python `s >= t` on strings (negation of `<` in a total order). -/
def str_ge (s t : String) : Bool := ! str_lt s t

theorem str_lt_chars_iff (as bs : List Char) :
    str_lt_chars as bs = true ↔ List.lt as bs := by
  induction as generalizing bs with
  | nil =>
    cases bs with
    | nil => simp [str_lt_chars]; intro h; cases h
    | cons b bs => simp [str_lt_chars]; exact .nil b bs
  | cons a as ih =>
    cases bs with
    | nil => simp [str_lt_chars]; intro h; cases h
    | cons b bs =>
      by_cases hab : a < b
      · simp [str_lt_chars, hab]
        exact .head _ _ hab
      · by_cases hba : b < a
        · simp [str_lt_chars, hab, hba]
          intro h
          cases h with
          | head _ _ h => exact hab h
          | tail _ h2 _ => exact h2 hba
        · simp [str_lt_chars, hab, hba]
          constructor
          · intro h
            exact .tail hab hba (ih bs |>.mp h)
          · intro h
            cases h with
            | head _ _ h => exact absurd h hab
            | tail _ _ h3 => exact (ih bs).mpr h3

theorem str_lt_iff (s t : String) : str_lt s t = true ↔ s < t := by
  rw [String.lt_iff_toList_lt]
  show str_lt_chars s.data t.data = true ↔ List.Lex (· < ·) s.data t.data
  rw [← List.lt_iff_lex_lt]
  exact str_lt_chars_iff s.data t.data

theorem str_lt_eq_decide (s t : String) : str_lt s t = decide (s < t) := by
  by_cases h : s < t
  · rw [decide_eq_true h, (str_lt_iff s t).mpr h]
  · rw [decide_eq_false h]
    exact Bool.eq_false_iff.mpr (fun hc => h ((str_lt_iff s t).mp hc))

/-! ## Schedules table (`db/database.py`, `services/schedule_service.py`)

The `schedules` table is declared with `schedule_id TEXT PRIMARY KEY` and no
other uniqueness constraint, so `INSERT OR REPLACE` can only replace a row
whose `schedule_id` collides.  Rows are kept in insertion (rowid) order;
`fetchone` of an unordered `SELECT` scans in that order. -/

/-- A row of the `schedules` table (the `time_blocks` JSON column is kept
decoded). -/
structure ScheduleRow where
  schedule_id : String
  user_id : String
  date : String
  time_blocks : List TimeBlock
deriving Repr, DecidableEq

/-- Embeds `INSERT OR REPLACE INTO schedules ...`: delete any row with the same
primary key `schedule_id`, then append the new row. -/
def insert_or_replace_schedule (tbl : List ScheduleRow) (r : ScheduleRow) :
    List ScheduleRow :=
  tbl.filter (fun q => ! (q.schedule_id == r.schedule_id)) ++ [r]

/-- The persistence step of `generate_schedule`: a fresh `schedule_id`
(uuid4) is generated on every call and the parsed blocks are stored with
`INSERT OR REPLACE`. -/
def generate_schedule_store (tbl : List ScheduleRow)
    (schedule_id user_id date_iso : String) (blocks : List TimeBlock) :
    List ScheduleRow :=
  insert_or_replace_schedule tbl ⟨schedule_id, user_id, date_iso, blocks⟩

/-- Embeds `get_schedule`: `SELECT * FROM schedules WHERE user_id = ? AND date = ?`
followed by `fetchone()` (first matching row in scan order). -/
def get_schedule_row (tbl : List ScheduleRow) (user_id date_iso : String) :
    Option ScheduleRow :=
  tbl.find? (fun q => q.user_id == user_id && q.date == date_iso)

/-- An initial stored block, used as concrete data below. -/
def oldBlock : TimeBlock :=
  ⟨"b1", "Old task", "09:00", "10:00", "work", "pending"⟩

/-- A block of a regenerated schedule, used as concrete data below. -/
def newBlock : TimeBlock :=
  ⟨"b2", "New task", "09:00", "10:00", "work", "pending"⟩

/-- C2: generating a schedule twice for the same (user, date) pair does not
replace the first row.  The fresh uuid primary key never collides, so after
the second generation the table holds two rows for ("u", "2026-10-12"), the
old blocks are still stored, and retrieval (`fetchone` in scan order)
returns the first, stale schedule rather than the newly generated one. -/
theorem generate_schedule_duplicate_rows :
    (generate_schedule_store
        (generate_schedule_store [] "s1" "u" "2026-10-12" [oldBlock])
        "s2" "u" "2026-10-12" [newBlock]).length = 2 ∧
    oldBlock ∈ ((generate_schedule_store
        (generate_schedule_store [] "s1" "u" "2026-10-12" [oldBlock])
        "s2" "u" "2026-10-12" [newBlock]).map ScheduleRow.time_blocks).flatten ∧
    get_schedule_row
        (generate_schedule_store
          (generate_schedule_store [] "s1" "u" "2026-10-12" [oldBlock])
          "s2" "u" "2026-10-12" [newBlock]) "u" "2026-10-12"
      = some ⟨"s1", "u", "2026-10-12", [oldBlock]⟩ := by
  decide

/-! ## Adaptive reschedule (`adaptive_reschedule_today`) -/

/-- The `missed` partition: blocks with status `"pending"` or `"skipped"`
whose end time is lexicographically before the current `"HH:MM"` string. -/
def missed_of (blocks : List TimeBlock) (now : String) : List TimeBlock :=
  blocks.filter (fun b =>
    (b.status == "pending" || b.status == "skipped") && str_lt b.end_time now)

/-- The `remaining` partition: blocks whose end time is at or after the
current time and whose status is `"pending"`. -/
def remaining_of (blocks : List TimeBlock) (now : String) : List TimeBlock :=
  blocks.filter (fun b => str_ge b.end_time now && b.status == "pending")

/-- The blocks whose status is `"completed"` (`completed_blocks` in the
reassembly step). -/
def completed_of (blocks : List TimeBlock) : List TimeBlock :=
  blocks.filter (fun b => b.status == "completed")

/-- The observable outcome of `adaptive_reschedule_today`: the returned
block list, whether `run_planner` was invoked, whether the schedule row was
rewritten, and the block list stored in the row afterwards. -/
structure RescheduleOutcome where
  result_blocks : List TimeBlock
  remote_called : Bool
  db_written : Bool
  stored_blocks : List TimeBlock
deriving Repr, DecidableEq

/-- Embeds `adaptive_reschedule_today` on a stored schedule for today.  `blocks` is
the stored block list, `now` the current `"HH:MM"` string, and
`model_blocks` the parse outcome of the model's response (`none` when
`json.loads` of the cleaned response raises, in which case the code falls
back to `{"time_blocks": remaining, ...}`).  When nothing is missed the
function returns before the model call and before any write. -/
def adaptive_reschedule_today (blocks : List TimeBlock) (now : String)
    (model_blocks : Option (List TimeBlock)) : RescheduleOutcome :=
  let missed := missed_of blocks now
  let remaining := remaining_of blocks now
  if missed.isEmpty then
    ⟨blocks, false, false, blocks⟩
  else
    let parsed_blocks := model_blocks.getD remaining
    let new_blocks := completed_of blocks ++ parsed_blocks
    ⟨new_blocks, true, true, new_blocks⟩

/-- C3: when no block of today's schedule is missed, adaptive reschedule
returns the stored blocks unchanged, makes no remote-model call, and leaves
the stored schedule row unmodified — whatever the model would have
answered. -/
theorem adaptive_reschedule_no_missed (blocks : List TimeBlock) (now : String)
    (resp : Option (List TimeBlock)) (h : missed_of blocks now = []) :
    adaptive_reschedule_today blocks now resp = ⟨blocks, false, false, blocks⟩ := by
  simp [adaptive_reschedule_today, h]

/-- C3 witness: a schedule whose only blocks are a completed morning block
and a pending evening block has no missed block at 12:00, and adaptive
reschedule is the identity there. -/
theorem adaptive_reschedule_no_missed_witness :
    missed_of
      [⟨"b1", "Deep work", "07:00", "08:00", "work", "completed"⟩,
       ⟨"b2", "Review", "18:00", "19:00", "work", "pending"⟩] "12:00" = [] ∧
    adaptive_reschedule_today
      [⟨"b1", "Deep work", "07:00", "08:00", "work", "completed"⟩,
       ⟨"b2", "Review", "18:00", "19:00", "work", "pending"⟩] "12:00" none =
      ⟨[⟨"b1", "Deep work", "07:00", "08:00", "work", "completed"⟩,
        ⟨"b2", "Review", "18:00", "19:00", "work", "pending"⟩],
       false, false,
       [⟨"b1", "Deep work", "07:00", "08:00", "work", "completed"⟩,
        ⟨"b2", "Review", "18:00", "19:00", "work", "pending"⟩]⟩ :=
  ⟨by decide, adaptive_reschedule_no_missed
    [⟨"b1", "Deep work", "07:00", "08:00", "work", "completed"⟩,
     ⟨"b2", "Review", "18:00", "19:00", "work", "pending"⟩] "12:00" none (by decide)⟩

/-- C4: adaptive reschedule partitions today's blocks by lexicographic
comparison of the end-time string with the current time-of-day string —
missed are the blocks with status pending or skipped ending strictly before
now, remaining the pending blocks ending at or after now — and, when at
least one block is missed, stores exactly the completed-status blocks
followed by whatever block list the model returned, with no verification
that the returned block identifiers match the original set (the stored
suffix is an arbitrary `bs`). -/
theorem adaptive_reschedule_partition (blocks : List TimeBlock) (now : String)
    (bs : List TimeBlock) (h : missed_of blocks now ≠ []) :
    missed_of blocks now = blocks.filter (fun b =>
      decide ((b.status = "pending" ∨ b.status = "skipped") ∧ b.end_time < now)) ∧
    remaining_of blocks now = blocks.filter (fun b =>
      decide (b.status = "pending" ∧ now ≤ b.end_time)) ∧
    (adaptive_reschedule_today blocks now (some bs)).stored_blocks =
      blocks.filter (fun b => b.status == "completed") ++ bs := by
  obtain ⟨m, ms, hm⟩ : ∃ m ms, missed_of blocks now = m :: ms := by
    cases hmm : missed_of blocks now with
    | nil => exact absurd hmm h
    | cons m ms => exact ⟨m, ms, rfl⟩
  refine ⟨?_, ?_, ?_⟩
  · unfold missed_of
    refine List.filter_congr ?_
    intro b _
    by_cases h1 : b.status = "pending" <;> by_cases h2 : b.status = "skipped" <;>
      by_cases h3 : b.end_time < now <;>
        simp [h1, h2, h3, str_lt_eq_decide]
  · unfold remaining_of
    refine List.filter_congr ?_
    intro b _
    by_cases h1 : b.status = "pending" <;> by_cases h3 : b.end_time < now <;>
      simp [h1, h3, str_ge, str_lt_eq_decide, not_lt.symm, le_of_not_lt,
        not_le_of_lt]
  · simp [adaptive_reschedule_today, hm, completed_of]

/-- C4 witness: one pending block ending at 08:00 is missed at 12:00, and
the stored list becomes the completed blocks followed by an arbitrary
model-returned block whose identifier is not among the originals. -/
theorem adaptive_reschedule_partition_witness :
    missed_of [oldBlock, ⟨"b3", "Gym", "17:00", "18:00", "fitness", "completed"⟩]
        "12:00" ≠ [] ∧
    ((adaptive_reschedule_today
        [oldBlock, ⟨"b3", "Gym", "17:00", "18:00", "fitness", "completed"⟩]
        "12:00" (some [newBlock])).stored_blocks =
      [oldBlock, ⟨"b3", "Gym", "17:00", "18:00", "fitness", "completed"⟩].filter
          (fun b => b.status == "completed") ++ [newBlock]) :=
  ⟨by decide,
   (adaptive_reschedule_partition
      [oldBlock, ⟨"b3", "Gym", "17:00", "18:00", "fitness", "completed"⟩]
      "12:00" [newBlock] (by decide)).2.2⟩

/-- C10: when at least one block is missed and the model's response fails to
parse as JSON, the stored and returned block list is exactly the
completed-status blocks followed by the remaining pending blocks, and every
missed block has been silently dropped from the schedule. -/
theorem adaptive_reschedule_parse_failure (blocks : List TimeBlock)
    (now : String) (h : missed_of blocks now ≠ []) :
    (adaptive_reschedule_today blocks now none).stored_blocks =
      completed_of blocks ++ remaining_of blocks now ∧
    ∀ b ∈ missed_of blocks now,
      b ∉ (adaptive_reschedule_today blocks now none).stored_blocks := by
  obtain ⟨m, ms, hm⟩ : ∃ m ms, missed_of blocks now = m :: ms := by
    cases hmm : missed_of blocks now with
    | nil => exact absurd hmm h
    | cons m ms => exact ⟨m, ms, rfl⟩
  have hstored : (adaptive_reschedule_today blocks now none).stored_blocks =
      completed_of blocks ++ remaining_of blocks now := by
    simp [adaptive_reschedule_today, hm]
  refine ⟨hstored, ?_⟩
  intro b hb hmem
  rw [hstored] at hmem
  have hb' := (List.mem_filter.mp hb).2
  simp only [Bool.and_eq_true, Bool.or_eq_true, beq_iff_eq] at hb'
  obtain ⟨hst, hlt⟩ := hb'
  rcases List.mem_append.mp hmem with hc | hr
  · have hcomp : b.status = "completed" := by
      simpa using (List.mem_filter.mp hc).2
    rcases hst with h' | h' <;> rw [h'] at hcomp <;> exact absurd hcomp (by decide)
  · have hr' := (List.mem_filter.mp hr).2
    simp only [Bool.and_eq_true] at hr'
    have hge : str_ge b.end_time now = true := hr'.1
    rw [str_ge, hlt] at hge
    exact absurd hge (by decide)

/-- C10 witness: with one missed pending block and one completed block at
12:00 and an unparseable model response, the missed block disappears and the
stored list is the completed block followed by the (empty) remaining set. -/
theorem adaptive_reschedule_parse_failure_witness :
    missed_of [oldBlock, ⟨"b3", "Gym", "10:00", "11:00", "fitness", "completed"⟩]
        "12:00" ≠ [] ∧
    ((adaptive_reschedule_today
        [oldBlock, ⟨"b3", "Gym", "10:00", "11:00", "fitness", "completed"⟩]
        "12:00" none).stored_blocks =
      completed_of [oldBlock, ⟨"b3", "Gym", "10:00", "11:00", "fitness", "completed"⟩] ++
        remaining_of [oldBlock, ⟨"b3", "Gym", "10:00", "11:00", "fitness", "completed"⟩]
          "12:00") :=
  ⟨by decide,
   (adaptive_reschedule_parse_failure
      [oldBlock, ⟨"b3", "Gym", "10:00", "11:00", "fitness", "completed"⟩]
      "12:00" (by decide)).1⟩

/-! ## Model-response extraction

`generate_schedule`, `adaptive_reschedule_today` and `api_suggest_habits`
clean the model's text with
`.strip().lstrip("```json").lstrip("```").rstrip("```").strip()`;
`run_coach` uses `.strip().strip("```json").strip("```").strip()`.
Python's `str.lstrip`/`rstrip`/`strip` with a string argument treat the
argument as a set of characters, so the arguments here become character
predicates.  `json.loads` is represented by an arbitrary `parse` function
returning `none` exactly when the Python call raises. -/

/-- Membership in Python's `str.strip()` default whitespace set (ASCII). -/
def is_py_space (c : Char) : Bool :=
  c == ' ' || c == '\t' || c == '\n' || c == '\r' || c == '\x0B' || c == '\x0C'

/-- Membership in the character set of the argument `"```json"`. -/
def is_fence_char (c : Char) : Bool :=
  c == '\x60' || c == 'j' || c == 's' || c == 'o' || c == 'n'

/-- Membership in the character set of the argument `"```"`. -/
def is_backtick (c : Char) : Bool := c == '\x60'

/-- Python `str.lstrip`: drop leading characters of the set. -/
def py_lstrip (p : Char → Bool) (s : List Char) : List Char := s.dropWhile p

/-- Python `str.rstrip`: drop trailing characters of the set. -/
def py_rstrip (p : Char → Bool) (s : List Char) : List Char :=
  (s.reverse.dropWhile p).reverse

/-- Python `str.strip`: drop the set's characters from both ends. -/
def py_strip (p : Char → Bool) (s : List Char) : List Char :=
  py_rstrip p (py_lstrip p s)

/-- Embeds `ai_response.strip().lstrip("```json").lstrip("```").rstrip("```").strip()`. -/
def clean_response (s : String) : String :=
  ⟨py_strip is_py_space (py_rstrip is_backtick (py_lstrip is_backtick
    (py_lstrip is_fence_char (py_strip is_py_space s.data))))⟩

/-- Embeds `raw.strip().strip("```json").strip("```").strip()` (from `run_coach`). -/
def clean_coach_response (s : String) : String :=
  ⟨py_strip is_py_space (py_strip is_backtick (py_strip is_fence_char
    (py_strip is_py_space s.data)))⟩

/-- The parse-or-default step shared by `generate_schedule`,
`adaptive_reschedule_today` and `api_suggest_habits`: `json.loads` of the
cleaned text inside `try`, with the capability-specific default/empty
structure returned when parsing raises. -/
def extract_response {α : Type} (parse : String → Option α) (defaultVal : α)
    (raw : String) : α :=
  (parse (clean_response raw)).getD defaultVal

/-- The fallback value of `run_coach`:
`{"reply": raw, "suggested_actions": []}`. -/
structure CoachReply where
  reply : String
  suggested_actions : List String
deriving Repr, DecidableEq

/-- Embeds `run_coach`'s extraction: the parsed JSON value on success, otherwise
the raw text as the reply with no suggested actions. -/
def run_coach_extract {α : Type} (parse : String → Option α) (raw : String) :
    α ⊕ CoachReply :=
  match parse (clean_coach_response raw) with
  | some v => Sum.inl v
  | none => Sum.inr ⟨raw, []⟩

theorem schedule_chain_fenced (mid : List Char) :
    py_strip is_py_space (py_rstrip is_backtick (py_lstrip is_backtick
      (py_lstrip is_fence_char (py_strip is_py_space
        ('\x60':: '\x60':: '\x60':: 'j':: 's':: 'o':: 'n':: '\n':: '{'::
          (mid ++ ['}', '\n', '\x60', '\x60', '\x60'])))))) = '{' :: (mid ++ ['}']) := by
  simp [py_strip, py_lstrip, py_rstrip, is_py_space, is_fence_char, is_backtick,
        List.dropWhile_cons, List.reverse_append]

theorem coach_chain_fenced (mid : List Char) :
    py_strip is_py_space (py_strip is_backtick (py_strip is_fence_char
      (py_strip is_py_space
        ('\x60':: '\x60':: '\x60':: 'j':: 's':: 'o':: 'n':: '\n':: '{'::
          (mid ++ ['}', '\n', '\x60', '\x60', '\x60']))))) = '{' :: (mid ++ ['}']) := by
  simp [py_strip, py_lstrip, py_rstrip, is_py_space, is_fence_char, is_backtick,
        List.dropWhile_cons, List.reverse_append]

theorem fenced_wrap_data (mid : List Char) :
    ("```json\n" ++ (⟨'{' :: (mid ++ ['}'])⟩ : String) ++ "\n```").data =
      '\x60':: '\x60':: '\x60':: 'j':: 's':: 'o':: 'n':: '\n':: '{'::
        (mid ++ ['}', '\n', '\x60', '\x60', '\x60']) := by
  rw [String.data_append, String.data_append]
  show ['\x60', '\x60', '\x60', 'j', 's', 'o', 'n', '\n'] ++
      ('{' :: (mid ++ ['}'])) ++ ['\n', '\x60', '\x60', '\x60'] = _
  simp

/-- C8: response extraction never raises.  For a JSON object (a text of the
form `{…}`) wrapped in ```json … ``` fence markers, both cleaning chains
recover the embedded object byte-for-byte, so the extracted value equals the
result of parsing the unwrapped text; and whenever the cleaned text fails to
parse as JSON, the capability-specific default (for schedules/habits) or the
`{reply: rawText, suggested_actions: []}` structure (for the coach) is
returned instead of propagating the error. -/
theorem extract_response_spec {α : Type} (parse : String → Option α)
    (defaultVal : α) (mid : List Char) (v : α) (raw₁ raw₂ : String)
    (hparse : parse ⟨'{' :: (mid ++ ['}'])⟩ = some v)
    (hfail₁ : parse (clean_response raw₁) = none)
    (hfail₂ : parse (clean_coach_response raw₂) = none) :
    clean_response ("```json\n" ++ (⟨'{' :: (mid ++ ['}'])⟩ : String) ++ "\n```")
        = ⟨'{' :: (mid ++ ['}'])⟩ ∧
    clean_coach_response
        ("```json\n" ++ (⟨'{' :: (mid ++ ['}'])⟩ : String) ++ "\n```")
        = ⟨'{' :: (mid ++ ['}'])⟩ ∧
    extract_response parse defaultVal
        ("```json\n" ++ (⟨'{' :: (mid ++ ['}'])⟩ : String) ++ "\n```") = v ∧
    extract_response parse defaultVal raw₁ = defaultVal ∧
    run_coach_extract parse raw₂ = Sum.inr ⟨raw₂, []⟩ := by
  have hclean : clean_response
      ("```json\n" ++ (⟨'{' :: (mid ++ ['}'])⟩ : String) ++ "\n```")
      = ⟨'{' :: (mid ++ ['}'])⟩ := by
    unfold clean_response
    rw [fenced_wrap_data, schedule_chain_fenced]
  have hcoach : clean_coach_response
      ("```json\n" ++ (⟨'{' :: (mid ++ ['}'])⟩ : String) ++ "\n```")
      = ⟨'{' :: (mid ++ ['}'])⟩ := by
    unfold clean_coach_response
    rw [fenced_wrap_data, coach_chain_fenced]
  refine ⟨hclean, hcoach, ?_, ?_, ?_⟩
  · rw [extract_response, hclean, hparse]
    rfl
  · rw [extract_response, hfail₁]
    rfl
  · rw [run_coach_extract, hfail₂]

/-- C8 witness: with a parse function recognising exactly the object text
`{}`, the fenced response ```` ```json\n{}\n``` ```` is cleaned to `{}` and
extracted as its parse, while the unparseable texts `"hello"` and `"oops"`
yield the schedule default and the coach fallback respectively. -/
theorem extract_response_spec_witness :
    clean_response ("```json\n" ++ (⟨'{' :: ([] ++ ['}'])⟩ : String) ++ "\n```")
        = ⟨'{' :: ([] ++ ['}'])⟩ ∧
    clean_coach_response
        ("```json\n" ++ (⟨'{' :: ([] ++ ['}'])⟩ : String) ++ "\n```")
        = ⟨'{' :: ([] ++ ['}'])⟩ ∧
    extract_response (fun s => if s = "{}" then some 7 else none) 0
        ("```json\n" ++ (⟨'{' :: ([] ++ ['}'])⟩ : String) ++ "\n```") = 7 ∧
    extract_response (fun s => if s = "{}" then some 7 else none) 0 "hello" = 0 ∧
    run_coach_extract (fun s => if s = "{}" then some 7 else none) "oops"
        = Sum.inr ⟨"oops", []⟩ :=
  extract_response_spec (fun s => if s = "{}" then some 7 else none) 0 [] 7
    "hello" "oops" (by decide) (by decide) (by decide)

/-! ## Habits (`routers/habits.py`) -/

/-- A row of the `habits` table (the columns `api_habit_checkin` touches). -/
structure HabitRow where
  habit_id : String
  streak_count : Int
  last_completed : Option String
deriving Repr, DecidableEq

/-- A row of the `habit_logs` table. -/
structure HabitLog where
  log_id : String
  habit_id : String
  user_id : String
  date : String
  completed : Bool
  note : Option String
deriving Repr, DecidableEq

/-- The two tables `api_habit_checkin` reads and writes. -/
structure HabitsDB where
  habits : List HabitRow
  habit_logs : List HabitLog
deriving Repr, DecidableEq

/-- Embeds `api_habit_checkin`: always insert a `habit_logs` row; then, if the
check-in is completed, `UPDATE habits SET streak_count = streak_count + 1,
last_completed = date WHERE habit_id = ?`, else
`UPDATE habits SET streak_count = 0 WHERE habit_id = ?`. -/
def api_habit_checkin (db : HabitsDB) (log_id user_id habit_id date_iso : String)
    (completed : Bool) (note : Option String) : HabitsDB :=
  let logs := db.habit_logs ++ [⟨log_id, habit_id, user_id, date_iso, completed, note⟩]
  let habits :=
    if completed then
      db.habits.map (fun h =>
        if h.habit_id == habit_id then
          { h with streak_count := h.streak_count + 1, last_completed := some date_iso }
        else h)
    else
      db.habits.map (fun h =>
        if h.habit_id == habit_id then { h with streak_count := 0 } else h)
  ⟨habits, logs⟩

/-- C7: for every stored habit and every prior streak value, a check-in with
completed=false resets the habit's streak to 0, a check-in with
completed=true increments the streak by exactly 1 and sets last_completed to
the check-in date, and in both cases the habit-log row is inserted. -/
theorem habit_checkin_streak (db : HabitsDB)
    (log_id user_id habit_id date_iso : String) (note : Option String)
    (h : HabitRow) (hmem : h ∈ db.habits) (hid : h.habit_id = habit_id) :
    ({ h with streak_count := 0 } : HabitRow) ∈
        (api_habit_checkin db log_id user_id habit_id date_iso false note).habits ∧
    (api_habit_checkin db log_id user_id habit_id date_iso false note).habit_logs
        = db.habit_logs ++ [⟨log_id, habit_id, user_id, date_iso, false, note⟩] ∧
    ({ h with streak_count := h.streak_count + 1,
              last_completed := some date_iso } : HabitRow) ∈
        (api_habit_checkin db log_id user_id habit_id date_iso true note).habits ∧
    (api_habit_checkin db log_id user_id habit_id date_iso true note).habit_logs
        = db.habit_logs ++ [⟨log_id, habit_id, user_id, date_iso, true, note⟩] := by
  refine ⟨?_, rfl, ?_, rfl⟩
  · exact List.mem_map.mpr ⟨h, hmem, by simp [hid]⟩
  · exact List.mem_map.mpr ⟨h, hmem, by simp [hid]⟩

/-- C7 witness: a habit with prior streak 4 goes to 0 on a missed check-in
and to 5 (with last_completed updated) on a completed one, with the log row
appended both times. -/
theorem habit_checkin_streak_witness :
    ((⟨"h1", 0, none⟩ : HabitRow) ∈
        (api_habit_checkin ⟨[⟨"h1", 4, none⟩], []⟩ "l1" "u" "h1" "2026-10-12"
          false none).habits ∧
    (api_habit_checkin ⟨[⟨"h1", 4, none⟩], []⟩ "l1" "u" "h1" "2026-10-12"
          false none).habit_logs
        = [] ++ [⟨"l1", "h1", "u", "2026-10-12", false, none⟩] ∧
    (⟨"h1", 4 + 1, some "2026-10-12"⟩ : HabitRow) ∈
        (api_habit_checkin ⟨[⟨"h1", 4, none⟩], []⟩ "l1" "u" "h1" "2026-10-12"
          true none).habits ∧
    (api_habit_checkin ⟨[⟨"h1", 4, none⟩], []⟩ "l1" "u" "h1" "2026-10-12"
          true none).habit_logs
        = [] ++ [⟨"l1", "h1", "u", "2026-10-12", true, none⟩]) :=
  habit_checkin_streak ⟨[⟨"h1", 4, none⟩], []⟩ "l1" "u" "h1" "2026-10-12" none
    ⟨"h1", 4, none⟩ (by simp) rfl

/-! ## Chat sessions (`routers/chat.py`) -/

/-- A message of a conversation history. -/
structure ChatMsg where
  role : String
  content : String
  timestamp : String
deriving Repr, DecidableEq

/-- A row of the `chat_sessions` table (history kept decoded). -/
structure ChatSession where
  session_id : String
  user_id : String
  history : List ChatMsg
deriving Repr, DecidableEq

/-- Embeds `INSERT INTO chat_sessions ... ON CONFLICT(session_id) DO UPDATE SET
history = excluded.history, updated_at = excluded.updated_at`: on a primary
key collision the stored history is overwritten, otherwise the row is
appended. -/
def upsert_chat_session (tbl : List ChatSession) (s : ChatSession) :
    List ChatSession :=
  if tbl.any (fun q => q.session_id == s.session_id) then
    tbl.map (fun q =>
      if q.session_id == s.session_id then { q with history := s.history } else q)
  else
    tbl ++ [s]

/-- Embeds `api_chat`'s persistence step: `new_history` is the *request's*
`conversation_history` (not the stored one) extended with the new user
message and the assistant reply, upserted under `f"{user_id}_main"`. -/
def api_chat (tbl : List ChatSession) (user_id : String)
    (req_history : List ChatMsg) (message reply now_str : String) :
    List ChatSession :=
  let new_history := req_history ++
    [⟨"user", message, now_str⟩, ⟨"assistant", reply, now_str⟩]
  upsert_chat_session tbl ⟨user_id ++ "_main", user_id, new_history⟩

/-- Embeds `api_chat_history`: the stored history of a session, `[]` when the row
is absent. -/
def session_history (tbl : List ChatSession) (session_id : String) :
    List ChatMsg :=
  match tbl.find? (fun q => q.session_id == session_id) with
  | some s => s.history
  | none => []

theorem find?_map_update (sid : String) (hist : List ChatMsg) :
    ∀ tbl : List ChatSession,
      (tbl.map (fun q =>
          if q.session_id == sid then { q with history := hist } else q)).find?
          (fun q => q.session_id == sid)
        = (tbl.find? (fun q => q.session_id == sid)).map
            (fun q => if q.session_id == sid then { q with history := hist } else q)
  | [] => rfl
  | q :: tl => by
    rw [List.map_cons]
    cases hq : q.session_id == sid
    · simp only [hq, Bool.false_eq_true, if_false, List.find?_cons]
      exact find?_map_update sid hist tl
    · simp only [hq, if_true, List.find?_cons, Option.map_some']

theorem session_history_upsert (tbl : List ChatSession) (s : ChatSession) :
    session_history (upsert_chat_session tbl s) s.session_id = s.history := by
  unfold upsert_chat_session
  by_cases hany : tbl.any (fun q => q.session_id == s.session_id) = true
  · rw [if_pos hany]
    obtain ⟨q₀, hq₀⟩ : ∃ q₀,
        tbl.find? (fun q => q.session_id == s.session_id) = some q₀ := by
      have : (tbl.find? (fun q => q.session_id == s.session_id)).isSome := by
        rw [List.find?_isSome]
        obtain ⟨x, hx, hpx⟩ := List.any_eq_true.mp hany
        exact ⟨x, hx, hpx⟩
      exact Option.isSome_iff_exists.mp this
    have hpq₀ := List.find?_some hq₀
    unfold session_history
    rw [find?_map_update, hq₀, Option.map_some', if_pos hpq₀]
  · rw [if_neg hany]
    unfold session_history
    rw [List.find?_append]
    have hnone : tbl.find? (fun q => q.session_id == s.session_id) = none := by
      rw [List.find?_eq_none]
      intro x hx hpx
      exact hany (List.any_eq_true.mpr ⟨x, hx, hpx⟩)
    rw [hnone]
    simp

/-- C9 counterexample: a session for user "u" stores one old message; a chat
request arriving with an empty `conversation_history` overwrites the row, so
afterwards the stored history is just the two new messages and the
previously stored history is not a prefix of it. -/
theorem chat_history_not_append_only :
    session_history [⟨"u_main", "u", [⟨"user", "old", "t0"⟩]⟩] "u_main"
        = [⟨"user", "old", "t0"⟩] ∧
    session_history
        (api_chat [⟨"u_main", "u", [⟨"user", "old", "t0"⟩]⟩] "u" [] "hi" "yo" "t1")
        "u_main"
      = [⟨"user", "hi", "t1"⟩, ⟨"assistant", "yo", "t1"⟩] ∧
    ¬ ∃ t, [(⟨"user", "old", "t0"⟩ : ChatMsg)] ++ t =
        session_history
          (api_chat [⟨"u_main", "u", [⟨"user", "old", "t0"⟩]⟩] "u" [] "hi" "yo" "t1")
          "u_main" := by
  refine ⟨by decide, by decide, ?_⟩
  rintro ⟨t, ht⟩
  have h2 : session_history
      (api_chat [⟨"u_main", "u", [⟨"user", "old", "t0"⟩]⟩] "u" [] "hi" "yo" "t1")
      "u_main"
      = [⟨"user", "hi", "t1"⟩, ⟨"assistant", "yo", "t1"⟩] := by decide
  rw [h2] at ht
  simp [ChatMsg.mk.injEq] at ht

/-- C9 (amended): the stored chat history is not append-only relative to the
previously stored history; instead, after every chat-message operation the
stored history of `f"{user_id}_main"` equals the request-supplied
conversation history extended with the new user message and the assistant
reply (so the request history — not the previously stored one — is always a
prefix of the stored result, and the stored row is overwritten on every
message). -/
theorem api_chat_stores_request_history (tbl : List ChatSession)
    (user_id : String) (req_history : List ChatMsg)
    (message reply now_str : String) :
    session_history (api_chat tbl user_id req_history message reply now_str)
        (user_id ++ "_main")
      = req_history ++
        [⟨"user", message, now_str⟩, ⟨"assistant", reply, now_str⟩] := by
  unfold api_chat
  exact session_history_upsert tbl
    ⟨user_id ++ "_main", user_id,
      req_history ++ [⟨"user", message, now_str⟩, ⟨"assistant", reply, now_str⟩]⟩

end DayPilot
